import Mathlib

/-!
Shallow embedding of the simulation core of `src/src/App.tsx` (the
"Vibe Surfer" lane-runner game).

Conventions of the embedding:

* JavaScript numbers are modelled as exact rationals (`ℚ`); integer-valued
  state (score, lane index, aura count) as `ℤ`.
* React `useState` setters are modelled as immediate updates of a `Game`
  record, applied in program order (functional updaters read the current
  value).  This is the idealised single-step semantics the specification
  itself assumes.
* All randomness (`Math.random()` draws) and environment reads
  (`performance.now()`, canvas/window dimensions, touch coordinates) are
  supplied as oracle inputs: a `FrameInput` record per animation frame, and
  parameters on the discrete input events.  Per-particle random draws are
  supplied as a `Seed` stream; the trigonometric shaping of a burst
  particle's velocity (`cos/sin` of a random angle times a random speed) is
  absorbed into the oracle-provided `Seed.vx`/`Seed.vy` values.
* `setTimeout`/`clearTimeout` one-shot timers are modelled as an optional
  pending deadline (`Option ℚ`, absolute ms); a timer may fire (as an
  explicit `Event`) only while its deadline is the armed one, so a cleared
  or replaced timer never fires.
* `requestAnimationFrame(update)` at the end of a frame is recorded in the
  `frameReq` flag; the `draw` routine is pure canvas rendering and is out
  of scope (as the spec declares), except that the collision geometry it
  shares with `update` is embedded via `laneCenterX`.
* `localStorage` is modelled as the `storedHigh : Option String` field;
  `parseInt` is modelled with the ECMAScript `parseInt(string)` semantics
  for an undefined radix: leading ECMA whitespace and line terminators are
  skipped, an optional sign is read, a `0x`/`0X` prefix selects
  hexadecimal (otherwise decimal), and the longest digit prefix in the
  selected radix is parsed; `NaN` — modelled as `none` — results when no
  digit is found there.
-/

namespace VibeSurfer

/-- Source constant `LANES = 3`. -/
def LANES : ℤ := 3

/-- Source constant `LANE_WIDTH = 100`. -/
def LANE_WIDTH : ℚ := 100

/-- Source constant `PLAYER_SIZE = 40`. -/
def PLAYER_SIZE : ℚ := 40

/-- Source constant `OBSTACLE_SIZE = 50`. -/
def OBSTACLE_SIZE : ℚ := 50

/-- Source constant `AURA_SIZE = 30` (used only by `draw`). -/
def AURA_SIZE : ℚ := 30

/-- Source constant `INITIAL_SPEED = 5`. -/
def INITIAL_SPEED : ℚ := 5

/-- Source constant `SPEED_INCREMENT = 0.001`. -/
def SPEED_INCREMENT : ℚ := 0.001

/-- Source constant `FLOW_STATE_DURATION = 10000` (ms). -/
def FLOW_STATE_DURATION : ℚ := 10000

/-- The `GameState` union type of the source. -/
inductive GameState where
  | MENU
  | PLAYING
  | GAME_OVER
  | SHOP
deriving DecidableEq, Repr

/-- The two obstacle kinds (`'BLOCK' | 'AURA'`). -/
inductive ObstacleType where
  | BLOCK
  | AURA
deriving DecidableEq, Repr

/-- The `Obstacle` interface of the source. -/
structure Obstacle where
  id : ℚ
  lane : ℤ
  y : ℚ
  type : ObstacleType
deriving DecidableEq, Repr

/-- The `Particle` interface of the source. -/
structure Particle where
  id : ℚ
  x : ℚ
  y : ℚ
  vx : ℚ
  vy : ℚ
  life : ℚ
  maxLife : ℚ
  color : String
  size : ℚ
  glow : Bool
deriving DecidableEq, Repr

/-- Oracle values for the `Math.random()` draws made for one particle in
`createParticles`: its `id`, the velocity components
`cos(angle)*speed` / `sin(angle)*speed`, the `maxLife` draw
(`Math.random() * 0.5 + 0.5`) and the `size` draw
(`Math.random() * 4 + 2`). -/
structure Seed where
  id : ℚ
  vx : ℚ
  vy : ℚ
  maxLife : ℚ
  size : ℚ

/-- The fields a call site may pass in the `options : Partial Particle`
argument of `createParticles`; exactly the fields some call site overrides. -/
structure POpts where
  vx : Option ℚ := none
  vy : Option ℚ := none
  size : Option ℚ := none
  glow : Option Bool := none
  maxLife : Option ℚ := none

/-- The complete mutable state of the component: React `useState` values,
the mutable refs driven by the game loop, the pending one-shot timers, and
the `localStorage` mirror. -/
structure Game where
  gameState : GameState
  score : ℤ
  /-- In-memory high score; `none` models the JS `NaN` that
  `parseInt` yields on unparseable input. -/
  highScore : Option ℤ
  /-- The `localStorage` entry under the high-score key. -/
  storedHigh : Option String
  auraCount : ℤ
  isFlowState : Bool
  playerLane : ℤ
  gameOverText : String
  isShaking : Bool
  obstacles : List Obstacle
  particles : List Particle
  speed : ℚ
  lastTime : ℚ
  /-- Pending `flowStateTimerRef` deadline (absolute ms), if armed. -/
  flowTimer : Option ℚ
  /-- Pending `shakeTimerRef` deadline (absolute ms), if armed. -/
  shakeTimer : Option ℚ
  /-- Whether the frame just processed re-armed `requestAnimationFrame`. -/
  frameReq : Bool

/-- Oracle inputs consumed by a single `update` frame. -/
structure FrameInput where
  /-- The `time` argument of the frame callback. -/
  time : ℚ
  /-- Whether `canvasRef.current` is non-null. -/
  canvasSome : Bool
  canvasW : ℚ
  canvasH : ℚ
  innerW : ℚ
  innerH : ℚ
  /-- The draw for `Math.random() < 0.02 * (speed / 5)`. -/
  spawnRoll : ℚ
  /-- The draw for `Math.floor(Math.random() * LANES)`. -/
  spawnLane : ℤ
  /-- The `Date.now() + Math.random()` obstacle id. -/
  newId : ℚ
  /-- The draw for `Math.random() > 0.8` (aura kind). -/
  auraRoll : ℚ
  /-- Per-particle random draws for every `createParticles` call this frame. -/
  seeds : ℕ → Seed
  /-- The draw for `Math.floor(Math.random() * gameOverMessages.length)`. -/
  msgIdx : ℕ
  /-- The draw for the trail-emission probability check. -/
  trailRoll : ℚ
  /-- The draw for `(Math.random() - 0.5) * 2` in the trail particle. -/
  trailVx : ℚ

/-- The `gameOverMessages` array of the source. -/
def gameOverMessages : List String :=
  ["Aura points deducted.",
   "Bro forgot how to swipe.",
   "Touch grass (or just try again).",
   "L + Ratio + Crashed.",
   "Main character energy depleted.",
   "Skill issue detected.",
   "Vibe check failed."]

/-- Characters `parseInt` trims from the front: the ECMA *WhiteSpace*
code points — TAB U+0009, VT U+000B, FF U+000C, SP U+0020, NBSP U+00A0,
ZWNBSP/BOM U+FEFF and the Unicode `Zs` space separators (U+1680,
U+2000..U+200A, U+202F, U+205F, U+3000) — together with the
*LineTerminator* code points LF U+000A, CR U+000D, LS U+2028 and
PS U+2029. -/
def jsWhite (c : Char) : Bool :=
  c.toNat = 0x0009 ∨ c.toNat = 0x000A ∨ c.toNat = 0x000B ∨ c.toNat = 0x000C ∨
  c.toNat = 0x000D ∨ c.toNat = 0x0020 ∨ c.toNat = 0x00A0 ∨ c.toNat = 0x1680 ∨
  (0x2000 ≤ c.toNat ∧ c.toNat ≤ 0x200A) ∨ c.toNat = 0x2028 ∨ c.toNat = 0x2029 ∨
  c.toNat = 0x202F ∨ c.toNat = 0x205F ∨ c.toNat = 0x3000 ∨ c.toNat = 0xFEFF

/-- The radix-16 digits `parseInt` accepts after a `0x`/`0X` prefix. -/
def jsHexDigit (c : Char) : Bool :=
  c.isDigit ∨ ('a' ≤ c ∧ c ≤ 'f') ∨ ('A' ≤ c ∧ c ≤ 'F')

/-- Numeric value of one radix-16 digit. -/
def hexDigitVal (c : Char) : ℕ :=
  if c.isDigit then c.toNat - 48
  else if 'a' ≤ c ∧ c ≤ 'f' then c.toNat - 87
  else c.toNat - 55

/-- Numeric value of a decimal digit-prefix character list. -/
def digitsToNat (ds : List Char) : ℕ :=
  ds.foldl (fun a c => a * 10 + (c.toNat - 48)) 0

/-- Numeric value of a radix-16 digit-prefix character list. -/
def hexToNat (ds : List Char) : ℕ :=
  ds.foldl (fun a c => a * 16 + hexDigitVal c) 0

/-- Longest digit prefix in the selected radix, parsed to a signed value;
`none` (that is, `NaN`) when no digit is found there. -/
def parseDigits (sign : ℤ) (isHex : Bool) (cs : List Char) : Option ℤ :=
  if isHex then
    let ds := cs.takeWhile jsHexDigit
    if ds = [] then none else some (sign * (hexToNat ds : ℤ))
  else
    let ds := cs.takeWhile Char.isDigit
    if ds = [] then none else some (sign * (digitsToNat ds : ℤ))

/-- Model of JavaScript `parseInt(s)` with an undefined radix
(ECMA-262 `parseInt(string, radix)` steps 1–16): trim leading ECMA
whitespace, read an optional sign, let a `0x`/`0X` prefix select radix 16
(radix 10 otherwise), then parse the longest digit prefix in that radix;
yields `none` (that is, `NaN`) when no digit follows. -/
def parseIntJS (s : String) : Option ℤ :=
  let cs := s.data.dropWhile jsWhite
  let signed : ℤ × List Char :=
    match cs with
    | '-' :: rest => (-1, rest)
    | '+' :: rest => (1, rest)
    | _ => (1, cs)
  match signed.2 with
  | '0' :: c :: rest =>
      if c = 'x' ∨ c = 'X' then parseDigits signed.1 true rest
      else parseDigits signed.1 false signed.2
  | _ => parseDigits signed.1 false signed.2

/-- The `useState` initialiser of `highScore`:
`saved ? parseInt(saved) : 0` over the `localStorage` read — a missing
entry, and also the empty string (falsy in JS), give `0`; any other string
is handed to `parseInt`. -/
def initHighScore (saved : Option String) : Option ℤ :=
  match saved with
  | none => some 0
  | some s => if s = "" then some 0 else parseIntJS s

/-- JavaScript `>` on `score > highScore` where `highScore` may be `NaN`
(modelled `none`): every comparison against `NaN` is false. -/
def jsGtB (s : ℤ) (h : Option ℤ) : Bool :=
  match h with
  | none => false
  | some v => decide (v < s)

/-- One particle as pushed by the loop body of `createParticles`: fixed
`life = 1.0`, oracle draws from the seed, call-site overrides applied last
(mirroring the `...options` spread; `glow` defaults to `true`). -/
def mkSeedParticle (s : Seed) (x y : ℚ) (color : String) (opts : POpts) : Particle :=
  { id := s.id, x := x, y := y,
    vx := opts.vx.getD s.vx, vy := opts.vy.getD s.vy,
    life := 1, maxLife := opts.maxLife.getD s.maxLife,
    color := color, size := opts.size.getD s.size,
    glow := opts.glow.getD true }

/-- The `createParticles` helper: pushes `count` particles onto the
particle array. -/
def createParticles (seeds : ℕ → Seed) (x y : ℚ) (color : String)
    (count : ℕ) (opts : POpts) (ps : List Particle) : List Particle :=
  ps ++ (List.range count).map (fun i => mkSeedParticle (seeds i) x y color opts)

/-- The `triggerShake` helper: sets the shake flag and (re)arms the shake
timer — `clearTimeout` of any pending one followed by a fresh `setTimeout`
is modelled by overwriting the deadline. -/
def triggerShake (now duration : ℚ) (g : Game) : Game :=
  { g with isShaking := true, shakeTimer := some (now + duration) }

/-- The `startGame` handler (used by both the start and the restart
button). -/
def startGame (now : ℚ) (g : Game) : Game :=
  { g with gameState := GameState.PLAYING, score := 0, auraCount := 0,
           isFlowState := false, playerLane := 1, speed := INITIAL_SPEED,
           obstacles := [], particles := [], lastTime := now }

/-- The `endGame` helper: enter `GAME_OVER`, pick a flavour message,
persist the high score only when the current score strictly beats it, and
clear the pending flow-state timer (the shake timer is not touched). -/
def endGame (msgIdx : ℕ) (g : Game) : Game :=
  let g1 := { g with gameState := GameState.GAME_OVER,
                     gameOverText := gameOverMessages.getD msgIdx "" }
  let g2 := if jsGtB g1.score g1.highScore then
              { g1 with highScore := some g1.score,
                        storedHigh := some (toString g1.score) }
            else g1
  { g2 with flowTimer := none }

/-- The `activateFlowState` helper: set the flag, reset the aura count,
extended shake, two celebratory bursts, and (re)arm the flow-state expiry
timer for the full `FLOW_STATE_DURATION` (a pending one is cleared by the
overwrite, mirroring `clearTimeout` + `setTimeout`). -/
def activateFlowState (inp : FrameInput) (g : Game) : Game :=
  let g1 := { g with isFlowState := true, auraCount := 0 }
  let g2 := triggerShake inp.time 500 g1
  let ps3 := createParticles inp.seeds (inp.innerW / 2) (inp.innerH / 2) "#00ffff" 100
    { size := some 6, glow := some true } g2.particles
  let g3 := { g2 with particles := ps3 }
  let ps4 := createParticles inp.seeds (inp.innerW / 2) (inp.innerH / 2) "#ff00ff" 50
    { size := some 4, glow := some true } g3.particles
  let g4 := { g3 with particles := ps4 }
  { g4 with flowTimer := some (inp.time + FLOW_STATE_DURATION) }

/-- The `spawnObstacle` helper: push one obstacle above the play field at
an oracle-chosen lane, aura kind iff the draw exceeds `0.8`. -/
def spawnObstacle (inp : FrameInput) (g : Game) : Game :=
  { g with obstacles := g.obstacles ++
      [{ id := inp.newId, lane := inp.spawnLane, y := -100,
         type := if inp.auraRoll > 0.8 then ObstacleType.AURA else ObstacleType.BLOCK }] }

/-- The lane-centre x coordinate
`(canvas.width / 2) - (LANE_WIDTH * 1.5) + (lane * LANE_WIDTH) + (LANE_WIDTH / 2)`
computed identically for the obstacle lane and the player lane. -/
def laneCenterX (canvasW : ℚ) (lane : ℤ) : ℚ :=
  canvasW / 2 - LANE_WIDTH * 1.5 + (lane : ℚ) * LANE_WIDTH + LANE_WIDTH / 2

/-- One iteration of the obstacle `filter` callback: advance the obstacle,
run the axis-aligned proximity test when the canvas exists, apply the
collision side effects, and return the surviving obstacle (if any)
alongside the updated state. -/
def processObstacle (inp : FrameInput) (g : Game) (obs0 : Obstacle) :
    Game × Option Obstacle :=
  let obs := { obs0 with y := obs0.y + g.speed }
  if inp.canvasSome then
    let laneX := laneCenterX inp.canvasW obs.lane
    let playerX := laneCenterX inp.canvasW g.playerLane
    let playerY := inp.canvasH - 100
    let dx := |laneX - playerX|
    let dy := |obs.y - playerY|
    if dx < (PLAYER_SIZE + OBSTACLE_SIZE) / 2 ∧ dy < (PLAYER_SIZE + OBSTACLE_SIZE) / 2 then
      match obs.type with
      | ObstacleType.AURA =>
          let next := g.auraCount + 1
          let g1 := if 10 ≤ next ∧ g.isFlowState = false then
                      activateFlowState inp { g with auraCount := next }
                    else { g with auraCount := next }
          let ps2 := createParticles inp.seeds laneX obs.y "#00ffff" 20
            { size := some 5, glow := some true } g1.particles
          let g2 := { g1 with particles := ps2 }
          let ps3 := createParticles inp.seeds laneX obs.y "#ffffff" 10
            { size := some 2, glow := some false } g2.particles
          let g3 := { g2 with particles := ps3 }
          (triggerShake inp.time 100 g3, none)
      | ObstacleType.BLOCK =>
          if g.isFlowState then
            let ps1 := createParticles inp.seeds laneX obs.y "#ff00ff" 30
              { size := some 6, glow := some true } g.particles
            let g1 := { g with particles := ps1 }
            let g2 := { g1 with score := g1.score + 50 }
            (triggerShake inp.time 150 g2, none)
          else
            (endGame inp.msgIdx g, none)
    else
      (g, if obs.y < inp.innerH + 100 then some obs else none)
  else
    (g, if obs.y < inp.innerH + 100 then some obs else none)

/-- The whole obstacle `filter` pass, in array order: side effects thread
left to right, survivors keep their relative order. -/
def passObstacles (inp : FrameInput) (g : Game) :
    List Obstacle → Game × List Obstacle
  | [] => (g, [])
  | o :: rest =>
      let r1 := processObstacle inp g o
      let r2 := passObstacles inp r1.1 rest
      (r2.1, (match r1.2 with | some o2 => [o2] | none => []) ++ r2.2)

/-- The body of the particle `filter` callback: advance by velocity, apply
the `0.98` friction, decay life by `0.02 / maxLife`. -/
def stepParticle (p : Particle) : Particle :=
  { p with x := p.x + p.vx, y := p.y + p.vy,
           vx := p.vx * 0.98, vy := p.vy * 0.98,
           life := p.life - 0.02 / p.maxLife }

/-- The player-trail emission step: when the canvas exists and the roll
passes the flow-dependent threshold, push one trail particle at the player
position with the call site's overrides. -/
def trailEmit (inp : FrameInput) (g : Game) : Game :=
  if inp.canvasSome then
    let playerX := laneCenterX inp.canvasW g.playerLane
    let playerY := inp.canvasH - 100
    if inp.trailRoll < (if g.isFlowState then (0.8 : ℚ) else 0.3) then
      let ps := createParticles inp.seeds playerX (playerY + 20)
        (if g.isFlowState then "#ff00ff" else "#00ffff") 1
        { vx := some inp.trailVx, vy := some (g.speed * 0.5),
          size := some (if g.isFlowState then 8 else 4),
          glow := some g.isFlowState, maxLife := some 0.3 } g.particles
      { g with particles := ps }
    else g
  else g

/-- The per-frame `update` callback: bail out unless `PLAYING`; otherwise
speed increment, spawn roll, obstacle pass, particle pass, trail emission,
survival score increment, and re-arming of the animation frame (`draw` is
render-only and out of scope). -/
def update (inp : FrameInput) (g0 : Game) : Game :=
  if g0.gameState = GameState.PLAYING then
    let g := { g0 with lastTime := inp.time }
    let g := { g with speed := g.speed + SPEED_INCREMENT }
    let g := if inp.spawnRoll < 0.02 * (g.speed / 5) then spawnObstacle inp g else g
    let pr := passObstacles inp g g.obstacles
    let g := { pr.1 with obstacles := pr.2 }
    let ps := (g.particles.map stepParticle).filter (fun p => 0 < p.life)
    let g := { g with particles := ps }
    let g := trailEmit inp g
    let g := { g with score := g.score + 1 }
    { g with frameReq := true }
  else g0

/-- The `handleKeyDown` input handler: only while `PLAYING`, ArrowLeft
clamps the lane down and ArrowRight clamps it up. -/
def handleKeyDown (key : String) (g : Game) : Game :=
  if g.gameState = GameState.PLAYING then
    let g1 := if key = "ArrowLeft" then
                { g with playerLane := max 0 (g.playerLane - 1) }
              else g
    if key = "ArrowRight" then
      { g1 with playerLane := min (LANES - 1) (g1.playerLane + 1) }
    else g1
  else g

/-- The `handleTouchStart` input handler: only while `PLAYING`, left half
of the window shifts left, otherwise right. -/
def handleTouchStart (touchX innerW : ℚ) (g : Game) : Game :=
  if g.gameState = GameState.PLAYING then
    if touchX < innerW / 2 then
      { g with playerLane := max 0 (g.playerLane - 1) }
    else
      { g with playerLane := min (LANES - 1) (g.playerLane + 1) }
  else g

/-- The discrete events the component reacts to: the start/restart button,
the back-to-menu button (only rendered on the game-over screen), key and
touch input, one animation frame, and the firing of the two one-shot
timers at their armed deadline. -/
inductive Event where
  | start (t : ℚ)
  | toMenu
  | key (k : String)
  | touch (x w : ℚ)
  | frame (inp : FrameInput)
  | flowFire (t : ℚ)
  | shakeFire (t : ℚ)

/-- One step of the interactive system.  A timer-firing event has an
effect only while that timer is armed with exactly that deadline, so a
cleared or re-armed timer never fires (the `clearTimeout` discipline). -/
def step (e : Event) (g : Game) : Game :=
  match e with
  | Event.start t => startGame t g
  | Event.toMenu =>
      if g.gameState = GameState.GAME_OVER then
        { g with gameState := GameState.MENU }
      else g
  | Event.key k => handleKeyDown k g
  | Event.touch x w => handleTouchStart x w g
  | Event.frame inp => update inp g
  | Event.flowFire t =>
      if g.flowTimer = some t then
        { g with isFlowState := false, flowTimer := none }
      else g
  | Event.shakeFire t =>
      if g.shakeTimer = some t then
        { g with isShaking := false, shakeTimer := none }
      else g

/-- The initial component state after mount, given the `localStorage`
content. -/
def initGame (saved : Option String) : Game :=
  { gameState := GameState.MENU, score := 0,
    highScore := initHighScore saved, storedHigh := saved,
    auraCount := 0, isFlowState := false, playerLane := 1,
    gameOverText := "", isShaking := false, obstacles := [], particles := [],
    speed := INITIAL_SPEED, lastTime := 0, flowTimer := none,
    shakeTimer := none, frameReq := false }

/-- Run a sequence of events from a state. -/
def run (g : Game) (es : List Event) : Game :=
  es.foldl (fun g e => step e g) g

/-- Iterate `n` animation frames fed by an input stream. -/
def runFrames (ins : ℕ → FrameInput) : ℕ → Game → Game
  | 0, g => g
  | n + 1, g => update (ins n) (runFrames ins n g)

/-! Basic facts about the individual operations. -/

@[simp] lemma triggerShake_speed (t d : ℚ) (g : Game) :
    (triggerShake t d g).speed = g.speed := rfl

@[simp] lemma triggerShake_gameState (t d : ℚ) (g : Game) :
    (triggerShake t d g).gameState = g.gameState := rfl

@[simp] lemma triggerShake_score (t d : ℚ) (g : Game) :
    (triggerShake t d g).score = g.score := rfl

@[simp] lemma triggerShake_auraCount (t d : ℚ) (g : Game) :
    (triggerShake t d g).auraCount = g.auraCount := rfl

@[simp] lemma triggerShake_isFlowState (t d : ℚ) (g : Game) :
    (triggerShake t d g).isFlowState = g.isFlowState := rfl

@[simp] lemma triggerShake_playerLane (t d : ℚ) (g : Game) :
    (triggerShake t d g).playerLane = g.playerLane := rfl

@[simp] lemma activateFlowState_speed (inp : FrameInput) (g : Game) :
    (activateFlowState inp g).speed = g.speed := rfl

@[simp] lemma activateFlowState_gameState (inp : FrameInput) (g : Game) :
    (activateFlowState inp g).gameState = g.gameState := rfl

@[simp] lemma activateFlowState_score (inp : FrameInput) (g : Game) :
    (activateFlowState inp g).score = g.score := rfl

@[simp] lemma activateFlowState_playerLane (inp : FrameInput) (g : Game) :
    (activateFlowState inp g).playerLane = g.playerLane := rfl

@[simp] lemma activateFlowState_auraCount (inp : FrameInput) (g : Game) :
    (activateFlowState inp g).auraCount = 0 := rfl

@[simp] lemma activateFlowState_isFlowState (inp : FrameInput) (g : Game) :
    (activateFlowState inp g).isFlowState = true := rfl

@[simp] lemma activateFlowState_flowTimer (inp : FrameInput) (g : Game) :
    (activateFlowState inp g).flowTimer = some (inp.time + FLOW_STATE_DURATION) := rfl

/-- Normal form of `endGame`. -/
lemma endGame_eq (i : ℕ) (g : Game) : endGame i g =
    { g with gameState := GameState.GAME_OVER,
             gameOverText := gameOverMessages.getD i "",
             highScore := if jsGtB g.score g.highScore then some g.score
                          else g.highScore,
             storedHigh := if jsGtB g.score g.highScore then some (toString g.score)
                           else g.storedHigh,
             flowTimer := none } := by
  cases h : jsGtB g.score g.highScore <;> simp [endGame, h]

@[simp] lemma endGame_gameState (i : ℕ) (g : Game) :
    (endGame i g).gameState = GameState.GAME_OVER := by
  rw [endGame_eq]

@[simp] lemma endGame_speed (i : ℕ) (g : Game) :
    (endGame i g).speed = g.speed := by rw [endGame_eq]

@[simp] lemma endGame_score (i : ℕ) (g : Game) :
    (endGame i g).score = g.score := by rw [endGame_eq]

@[simp] lemma endGame_auraCount (i : ℕ) (g : Game) :
    (endGame i g).auraCount = g.auraCount := by rw [endGame_eq]

@[simp] lemma endGame_isFlowState (i : ℕ) (g : Game) :
    (endGame i g).isFlowState = g.isFlowState := by rw [endGame_eq]

@[simp] lemma endGame_playerLane (i : ℕ) (g : Game) :
    (endGame i g).playerLane = g.playerLane := by rw [endGame_eq]

@[simp] lemma endGame_flowTimer (i : ℕ) (g : Game) :
    (endGame i g).flowTimer = none := by rw [endGame_eq]

@[simp] lemma endGame_shakeTimer (i : ℕ) (g : Game) :
    (endGame i g).shakeTimer = g.shakeTimer := by rw [endGame_eq]

@[simp] lemma spawnObstacle_speed (inp : FrameInput) (g : Game) :
    (spawnObstacle inp g).speed = g.speed := rfl

@[simp] lemma spawnObstacle_gameState (inp : FrameInput) (g : Game) :
    (spawnObstacle inp g).gameState = g.gameState := rfl

@[simp] lemma spawnObstacle_auraCount (inp : FrameInput) (g : Game) :
    (spawnObstacle inp g).auraCount = g.auraCount := rfl

@[simp] lemma spawnObstacle_playerLane (inp : FrameInput) (g : Game) :
    (spawnObstacle inp g).playerLane = g.playerLane := rfl

@[simp] lemma startGame_gameState (t : ℚ) (g : Game) :
    (startGame t g).gameState = GameState.PLAYING := rfl

@[simp] lemma startGame_speed (t : ℚ) (g : Game) :
    (startGame t g).speed = INITIAL_SPEED := rfl

@[simp] lemma startGame_auraCount (t : ℚ) (g : Game) :
    (startGame t g).auraCount = 0 := rfl

@[simp] lemma startGame_playerLane (t : ℚ) (g : Game) :
    (startGame t g).playerLane = 1 := rfl

@[simp] lemma startGame_isFlowState (t : ℚ) (g : Game) :
    (startGame t g).isFlowState = false := rfl

@[simp] lemma handleKeyDown_speed (k : String) (g : Game) :
    (handleKeyDown k g).speed = g.speed := by
  unfold handleKeyDown
  repeat' split
  all_goals rfl

@[simp] lemma handleKeyDown_gameState (k : String) (g : Game) :
    (handleKeyDown k g).gameState = g.gameState := by
  unfold handleKeyDown
  repeat' split
  all_goals rfl

@[simp] lemma handleKeyDown_auraCount (k : String) (g : Game) :
    (handleKeyDown k g).auraCount = g.auraCount := by
  unfold handleKeyDown
  repeat' split
  all_goals rfl

@[simp] lemma handleTouchStart_speed (x w : ℚ) (g : Game) :
    (handleTouchStart x w g).speed = g.speed := by
  unfold handleTouchStart
  repeat' split
  all_goals rfl

@[simp] lemma handleTouchStart_gameState (x w : ℚ) (g : Game) :
    (handleTouchStart x w g).gameState = g.gameState := by
  unfold handleTouchStart
  repeat' split
  all_goals rfl

@[simp] lemma handleTouchStart_auraCount (x w : ℚ) (g : Game) :
    (handleTouchStart x w g).auraCount = g.auraCount := by
  unfold handleTouchStart
  repeat' split
  all_goals rfl

lemma processObstacle_speed (inp : FrameInput) (g : Game) (o : Obstacle) :
    (processObstacle inp g o).1.speed = g.speed := by
  unfold processObstacle
  dsimp only
  repeat' split
  all_goals simp

lemma processObstacle_playerLane (inp : FrameInput) (g : Game) (o : Obstacle) :
    (processObstacle inp g o).1.playerLane = g.playerLane := by
  unfold processObstacle
  dsimp only
  repeat' split
  all_goals simp

lemma processObstacle_aura_nonneg (inp : FrameInput) (g : Game) (o : Obstacle)
    (h : 0 ≤ g.auraCount) : 0 ≤ (processObstacle inp g o).1.auraCount := by
  unfold processObstacle
  dsimp only
  repeat' split
  all_goals simp
  all_goals omega

lemma passObstacles_speed (inp : FrameInput) (os : List Obstacle) (g : Game) :
    (passObstacles inp g os).1.speed = g.speed := by
  induction os generalizing g with
  | nil => rfl
  | cons o rest ih =>
      simp only [passObstacles]
      rw [ih, processObstacle_speed]

lemma passObstacles_playerLane (inp : FrameInput) (os : List Obstacle) (g : Game) :
    (passObstacles inp g os).1.playerLane = g.playerLane := by
  induction os generalizing g with
  | nil => rfl
  | cons o rest ih =>
      simp only [passObstacles]
      rw [ih, processObstacle_playerLane]

lemma passObstacles_aura_nonneg (inp : FrameInput) (os : List Obstacle) (g : Game)
    (h : 0 ≤ g.auraCount) : 0 ≤ (passObstacles inp g os).1.auraCount := by
  induction os generalizing g with
  | nil => exact h
  | cons o rest ih =>
      simp only [passObstacles]
      exact ih _ (processObstacle_aura_nonneg inp g o h)

@[simp] lemma trailEmit_speed (inp : FrameInput) (g : Game) :
    (trailEmit inp g).speed = g.speed := by
  unfold trailEmit
  repeat' split
  all_goals rfl

@[simp] lemma trailEmit_gameState (inp : FrameInput) (g : Game) :
    (trailEmit inp g).gameState = g.gameState := by
  unfold trailEmit
  repeat' split
  all_goals rfl

@[simp] lemma trailEmit_auraCount (inp : FrameInput) (g : Game) :
    (trailEmit inp g).auraCount = g.auraCount := by
  unfold trailEmit
  repeat' split
  all_goals rfl

@[simp] lemma trailEmit_playerLane (inp : FrameInput) (g : Game) :
    (trailEmit inp g).playerLane = g.playerLane := by
  unfold trailEmit
  repeat' split
  all_goals rfl

/-- A frame seen in any state other than `PLAYING` is a no-op. -/
lemma update_of_notPlaying (inp : FrameInput) (g : Game)
    (h : g.gameState ≠ GameState.PLAYING) : update inp g = g := by
  unfold update
  rw [if_neg h]

/-- A frame seen while `PLAYING` adds exactly one speed increment,
whatever else happens during the frame. -/
lemma update_speed (inp : FrameInput) (g : Game)
    (h : g.gameState = GameState.PLAYING) :
    (update inp g).speed = g.speed + SPEED_INCREMENT := by
  unfold update
  rw [if_pos h]
  simp only [trailEmit_speed, passObstacles_speed]
  split
  all_goals simp

lemma update_aura_nonneg (inp : FrameInput) (g : Game)
    (h : 0 ≤ g.auraCount) : 0 ≤ (update inp g).auraCount := by
  unfold update
  split
  · simp only [trailEmit_auraCount]
    split
    · exact passObstacles_aura_nonneg _ _ _ (by simpa using h)
    · exact passObstacles_aura_nonneg _ _ _ (by simpa using h)
  · exact h

lemma step_aura_nonneg (e : Event) (g : Game)
    (h : 0 ≤ g.auraCount) : 0 ≤ (step e g).auraCount := by
  cases e with
  | start t =>
      show (0 : ℤ) ≤ (startGame t g).auraCount
      simp
  | toMenu =>
      show (0 : ℤ) ≤ (if g.gameState = GameState.GAME_OVER then
        { g with gameState := GameState.MENU } else g).auraCount
      split <;> simpa using h
  | key k =>
      show (0 : ℤ) ≤ (handleKeyDown k g).auraCount
      simpa using h
  | touch x w =>
      show (0 : ℤ) ≤ (handleTouchStart x w g).auraCount
      simpa using h
  | frame inp => exact update_aura_nonneg inp g h
  | flowFire t =>
      show (0 : ℤ) ≤ (if g.flowTimer = some t then
        { g with isFlowState := false, flowTimer := none } else g).auraCount
      split <;> simpa using h
  | shakeFire t =>
      show (0 : ℤ) ≤ (if g.shakeTimer = some t then
        { g with isShaking := false, shakeTimer := none } else g).auraCount
      split <;> simpa using h

lemma run_aura_nonneg (es : List Event) (g : Game)
    (h : 0 ≤ g.auraCount) : 0 ≤ (run g es).auraCount := by
  induction es generalizing g with
  | nil => exact h
  | cons e rest ih => exact ih _ (step_aura_nonneg e g h)

/-- A colliding Block while power mode is off runs exactly `endGame` and
drops the obstacle. -/
lemma processObstacle_block_fatal (inp : FrameInput) (g : Game) (o : Obstacle)
    (hc : inp.canvasSome = true) (ht : o.type = ObstacleType.BLOCK)
    (hf : g.isFlowState = false)
    (hdx : |laneCenterX inp.canvasW o.lane - laneCenterX inp.canvasW g.playerLane| <
      (PLAYER_SIZE + OBSTACLE_SIZE) / 2)
    (hdy : |o.y + g.speed - (inp.canvasH - 100)| < (PLAYER_SIZE + OBSTACLE_SIZE) / 2) :
    processObstacle inp g o = (endGame inp.msgIdx g, none) := by
  unfold processObstacle
  dsimp only
  rw [if_pos hc, if_pos (And.intro hdx hdy), ht]
  dsimp only
  rw [hf, if_neg Bool.false_ne_true]

/-- A colliding Block while power mode is on is destroyed: particle burst,
fixed 50-point bonus, brief shake, obstacle removed. -/
lemma processObstacle_block_flow (inp : FrameInput) (g : Game) (o : Obstacle)
    (hc : inp.canvasSome = true) (ht : o.type = ObstacleType.BLOCK)
    (hf : g.isFlowState = true)
    (hdx : |laneCenterX inp.canvasW o.lane - laneCenterX inp.canvasW g.playerLane| <
      (PLAYER_SIZE + OBSTACLE_SIZE) / 2)
    (hdy : |o.y + g.speed - (inp.canvasH - 100)| < (PLAYER_SIZE + OBSTACLE_SIZE) / 2) :
    processObstacle inp g o =
      (triggerShake inp.time 150
        { g with score := g.score + 50,
                 particles :=
                   createParticles inp.seeds (laneCenterX inp.canvasW o.lane)
                     (o.y + g.speed) "#ff00ff" 30
                     { size := some 6, glow := some true } g.particles },
       none) := by
  unfold processObstacle
  dsimp only
  rw [if_pos hc, if_pos (And.intro hdx hdy), ht]
  dsimp only
  rw [hf, if_pos rfl]

/-- A colliding Aura that does not reach the activation threshold just
increments the count, emits the two bursts and shakes. -/
lemma processObstacle_aura_noact (inp : FrameInput) (g : Game) (o : Obstacle)
    (hc : inp.canvasSome = true) (ht : o.type = ObstacleType.AURA)
    (hno : ¬ (10 ≤ g.auraCount + 1 ∧ g.isFlowState = false))
    (hdx : |laneCenterX inp.canvasW o.lane - laneCenterX inp.canvasW g.playerLane| <
      (PLAYER_SIZE + OBSTACLE_SIZE) / 2)
    (hdy : |o.y + g.speed - (inp.canvasH - 100)| < (PLAYER_SIZE + OBSTACLE_SIZE) / 2) :
    processObstacle inp g o =
      (triggerShake inp.time 100
        { g with auraCount := g.auraCount + 1,
                 particles :=
                   createParticles inp.seeds (laneCenterX inp.canvasW o.lane)
                     (o.y + g.speed) "#ffffff" 10
                     { size := some 2, glow := some false }
                     (createParticles inp.seeds (laneCenterX inp.canvasW o.lane)
                       (o.y + g.speed) "#00ffff" 20
                       { size := some 5, glow := some true } g.particles) },
       none) := by
  unfold processObstacle
  dsimp only
  rw [if_pos hc, if_pos (And.intro hdx hdy), ht]
  dsimp only
  rw [if_neg hno]

/-- A colliding Aura that reaches the threshold while power mode is off
activates flow state (which also resets the count). -/
lemma processObstacle_aura_act (inp : FrameInput) (g : Game) (o : Obstacle)
    (hc : inp.canvasSome = true) (ht : o.type = ObstacleType.AURA)
    (hten : 10 ≤ g.auraCount + 1) (hf : g.isFlowState = false)
    (hdx : |laneCenterX inp.canvasW o.lane - laneCenterX inp.canvasW g.playerLane| <
      (PLAYER_SIZE + OBSTACLE_SIZE) / 2)
    (hdy : |o.y + g.speed - (inp.canvasH - 100)| < (PLAYER_SIZE + OBSTACLE_SIZE) / 2) :
    (processObstacle inp g o).1.auraCount = 0 ∧
    (processObstacle inp g o).1.isFlowState = true ∧
    (processObstacle inp g o).2 = none := by
  unfold processObstacle
  dsimp only
  rw [if_pos hc, if_pos (And.intro hdx hdy), ht]
  dsimp only
  rw [if_pos (And.intro hten hf)]
  simp

/-- A fixed particle seed used by the concrete traces below. -/
def traceSeed : Seed :=
  { id := 0, vx := 0, vy := 0, maxLife := 1/2, size := 3 }

/-- Frame input for the concrete traces below: a 300 by 300 window (canvas
sized to the window, as the resize handler keeps it), an aura spawned into
the player's lane on each of the first 21 frames, no trail emission. -/
def traceInput (k : ℕ) : FrameInput :=
  { time := 16 * k, canvasSome := true, canvasW := 300, canvasH := 300,
    innerW := 300, innerH := 300,
    spawnRoll := if k ≤ 21 then 0 else 1, spawnLane := 1,
    newId := (k : ℚ), auraRoll := 1, seeds := fun _ => traceSeed,
    msgIdx := 0, trailRoll := 1, trailVx := 0 }

/-- Start a run and let 80 frames pass: 21 auras are spawned into the
player's lane on consecutive frames, fall to the player row and are
collected one after another — ten to activate flow state, then eleven more
while it is active. -/
def auraTrace : List Event :=
  Event.start 0 :: (List.range 80).map (fun k => Event.frame (traceInput (k + 1)))

set_option maxRecDepth 100000 in
unseal Rat.add Rat.mul Rat.inv Rat.sub Rat.ofScientific in
/-- Claim C1, counterexample.  The aura-collected count is not always in
`[0,10]`: auras collected while power mode is active are counted without
triggering the (guarded) activation/reset, so after activating flow state
on the tenth collection and then colliding with eleven more auras — all
well inside the 10-second window (80 frames at 16 ms), so the expiry timer
has not fired — the reachable state has `auraCount = 11` while the run is
still `PLAYING`. -/
theorem c1_aura_range_counterexample :
    (run (initGame none) auraTrace).auraCount = 11 ∧
    10 < (run (initGame none) auraTrace).auraCount ∧
    (run (initGame none) auraTrace).isFlowState = true ∧
    (run (initGame none) auraTrace).gameState = GameState.PLAYING := by
  decide

/-- Claim C1, amended.  In every reachable state the aura-collected count
is non-negative (it can exceed 10, but only via collections made while
power mode is active); and whenever an Aura collision increments the count
to the threshold (10 or beyond) while power mode is not active, power mode
becomes active and the count is reset to 0 in the same logical step, with
the obstacle removed. -/
theorem c1_aura_threshold_amended :
    (∀ (saved : Option String) (es : List Event),
        0 ≤ (run (initGame saved) es).auraCount) ∧
    (∀ (inp : FrameInput) (g : Game) (o : Obstacle),
        inp.canvasSome = true →
        o.type = ObstacleType.AURA →
        g.isFlowState = false →
        10 ≤ g.auraCount + 1 →
        |laneCenterX inp.canvasW o.lane - laneCenterX inp.canvasW g.playerLane| <
          (PLAYER_SIZE + OBSTACLE_SIZE) / 2 →
        |o.y + g.speed - (inp.canvasH - 100)| < (PLAYER_SIZE + OBSTACLE_SIZE) / 2 →
        (processObstacle inp g o).1.auraCount = 0 ∧
        (processObstacle inp g o).1.isFlowState = true ∧
        (processObstacle inp g o).2 = none) :=
  ⟨fun saved es => run_aura_nonneg es (initGame saved) (by simp [initGame]),
   fun inp g o hc ht hf hten hdx hdy =>
     processObstacle_aura_act inp g o hc ht hten hf hdx hdy⟩

/-- Concrete state for witnesses: a freshly started run. -/
def freshRun : Game := startGame 0 (initGame none)

/-- An aura obstacle in the player's lane one step above the player row. -/
def wAura : Obstacle := { id := 0, lane := 1, y := 160, type := ObstacleType.AURA }

/-- A block obstacle in the player's lane one step above the player row. -/
def wBlock : Obstacle := { id := 0, lane := 1, y := 160, type := ObstacleType.BLOCK }

unseal Rat.add Rat.mul Rat.inv Rat.sub Rat.ofScientific in
/-- Witness for the amended C1 at a concrete input: a run whose aura count
stands at 9 collides with one more aura and ends the step with the count
reset to 0 and flow state on. -/
theorem c1_aura_threshold_amended_witness :
    (processObstacle (traceInput 1) { freshRun with auraCount := 9 } wAura).1.auraCount = 0 ∧
    (processObstacle (traceInput 1) { freshRun with auraCount := 9 } wAura).1.isFlowState = true ∧
    (processObstacle (traceInput 1) { freshRun with auraCount := 9 } wAura).2 = none :=
  c1_aura_threshold_amended.2 (traceInput 1) { freshRun with auraCount := 9 } wAura
    rfl rfl rfl (by decide) (by decide) (by decide)

/-- Events that are lane-shift commands (keyboard or touch). -/
def isShiftEvent : Event → Prop
  | Event.key _ => True
  | Event.touch _ _ => True
  | _ => False

lemma shift_lane_bounds (e : Event) (he : isShiftEvent e) (g : Game)
    (h0 : 0 ≤ g.playerLane) (h2 : g.playerLane ≤ 2) :
    0 ≤ (step e g).playerLane ∧ (step e g).playerLane ≤ 2 := by
  cases e with
  | key k =>
      show 0 ≤ (handleKeyDown k g).playerLane ∧ (handleKeyDown k g).playerLane ≤ 2
      unfold handleKeyDown
      repeat' split
      all_goals try dsimp only
      all_goals try simp only [LANES]
      all_goals omega
  | touch x w =>
      show 0 ≤ (handleTouchStart x w g).playerLane ∧
        (handleTouchStart x w g).playerLane ≤ 2
      unfold handleTouchStart
      repeat' split
      all_goals try dsimp only
      all_goals try simp only [LANES]
      all_goals omega
  | start t => exact absurd he (by simp [isShiftEvent])
  | toMenu => exact absurd he (by simp [isShiftEvent])
  | frame inp => exact absurd he (by simp [isShiftEvent])
  | flowFire t => exact absurd he (by simp [isShiftEvent])
  | shakeFire t => exact absurd he (by simp [isShiftEvent])

/-- Claim C2.  Shift-left maps the lane to `max 0 (lane - 1)` and
shift-right to `min 2 (lane + 1)` (for both keyboard and touch input, the
latter split at half the window width); shift commands delivered while the
state is not `PLAYING` leave the lane unchanged; and any sequence of shift
commands from a lane in `{0,1,2}` keeps the lane in `{0,1,2}`. -/
theorem c2_lane_clamped :
    (∀ g : Game, g.gameState = GameState.PLAYING →
        (handleKeyDown "ArrowLeft" g).playerLane = max 0 (g.playerLane - 1) ∧
        (handleKeyDown "ArrowRight" g).playerLane = min (LANES - 1) (g.playerLane + 1)) ∧
    (∀ (g : Game) (x w : ℚ), g.gameState = GameState.PLAYING →
        (x < w / 2 →
          (handleTouchStart x w g).playerLane = max 0 (g.playerLane - 1)) ∧
        (¬ x < w / 2 →
          (handleTouchStart x w g).playerLane = min (LANES - 1) (g.playerLane + 1))) ∧
    (∀ (g : Game) (k : String), g.gameState ≠ GameState.PLAYING →
        (handleKeyDown k g).playerLane = g.playerLane) ∧
    (∀ (g : Game) (x w : ℚ), g.gameState ≠ GameState.PLAYING →
        (handleTouchStart x w g).playerLane = g.playerLane) ∧
    (∀ (g : Game) (es : List Event), (∀ e ∈ es, isShiftEvent e) →
        0 ≤ g.playerLane → g.playerLane ≤ 2 →
        0 ≤ (run g es).playerLane ∧ (run g es).playerLane ≤ 2) := by
  refine ⟨?_, ?_, ?_, ?_, ?_⟩
  · intro g h
    constructor
    · simp [handleKeyDown, h]
    · simp [handleKeyDown, h]
  · intro g x w h
    constructor
    · intro hx
      unfold handleTouchStart
      rw [if_pos h, if_pos hx]
    · intro hx
      unfold handleTouchStart
      rw [if_pos h, if_neg hx]
  · intro g k h
    unfold handleKeyDown
    rw [if_neg h]
  · intro g x w h
    unfold handleTouchStart
    rw [if_neg h]
  · intro g es hes h0 h2
    induction es generalizing g with
    | nil => exact ⟨h0, h2⟩
    | cons e rest ih =>
        have hb := shift_lane_bounds e (hes e (by simp)) g h0 h2
        exact ih (step e g) (fun e2 he2 => hes e2 (by simp [he2])) hb.1 hb.2

/-- Witness for C2 at concrete inputs: from the starting centre lane of a
fresh run, two right-shifts and then repeated extra shifts stay clamped. -/
theorem c2_lane_clamped_witness :
    (handleKeyDown "ArrowRight" freshRun).playerLane =
      min (LANES - 1) (freshRun.playerLane + 1) ∧
    0 ≤ (run freshRun [Event.key "ArrowRight", Event.key "ArrowRight",
          Event.key "ArrowRight", Event.touch 10 300]).playerLane ∧
    (run freshRun [Event.key "ArrowRight", Event.key "ArrowRight",
          Event.key "ArrowRight", Event.touch 10 300]).playerLane ≤ 2 := by
  refine ⟨(c2_lane_clamped.1 freshRun rfl).2, ?_, ?_⟩
  · exact (c2_lane_clamped.2.2.2.2 freshRun _
      (by intro e he; fin_cases he <;> simp [isShiftEvent])
      (by decide) (by decide)).1
  · exact (c2_lane_clamped.2.2.2.2 freshRun _
      (by intro e he; fin_cases he <;> simp [isShiftEvent])
      (by decide) (by decide)).2

/-- Claim C3.  A Block collision while power mode is off runs exactly
`endGame` (entering `GAME_OVER`) and removes the obstacle; and from
`GAME_OVER` no event other than the explicit start/restart command can
make the state `PLAYING` again. -/
theorem c3_fatal_collision_game_over :
    (∀ (inp : FrameInput) (g : Game) (o : Obstacle),
        inp.canvasSome = true →
        o.type = ObstacleType.BLOCK →
        g.isFlowState = false →
        |laneCenterX inp.canvasW o.lane - laneCenterX inp.canvasW g.playerLane| <
          (PLAYER_SIZE + OBSTACLE_SIZE) / 2 →
        |o.y + g.speed - (inp.canvasH - 100)| < (PLAYER_SIZE + OBSTACLE_SIZE) / 2 →
        processObstacle inp g o = (endGame inp.msgIdx g, none) ∧
        (processObstacle inp g o).1.gameState = GameState.GAME_OVER) ∧
    (∀ (g : Game) (e : Event), g.gameState = GameState.GAME_OVER →
        (step e g).gameState = GameState.PLAYING → ∃ t, e = Event.start t) := by
  constructor
  · intro inp g o hc ht hf hdx hdy
    have he := processObstacle_block_fatal inp g o hc ht hf hdx hdy
    exact ⟨he, by rw [he]; simp⟩
  · intro g e hg hp
    cases e with
    | start t => exact ⟨t, rfl⟩
    | toMenu =>
        exfalso
        revert hp
        show (if g.gameState = GameState.GAME_OVER then
          { g with gameState := GameState.MENU } else g).gameState =
            GameState.PLAYING → False
        rw [if_pos hg]
        simp
    | key k =>
        exfalso
        have : (handleKeyDown k g).gameState = GameState.PLAYING := hp
        rw [handleKeyDown_gameState, hg] at this
        exact absurd this (by simp)
    | touch x w =>
        exfalso
        have : (handleTouchStart x w g).gameState = GameState.PLAYING := hp
        rw [handleTouchStart_gameState, hg] at this
        exact absurd this (by simp)
    | frame inp =>
        exfalso
        have : (update inp g).gameState = GameState.PLAYING := hp
        rw [update_of_notPlaying inp g (by rw [hg]; simp), hg] at this
        exact absurd this (by simp)
    | flowFire t =>
        exfalso
        revert hp
        show (if g.flowTimer = some t then
          { g with isFlowState := false, flowTimer := none } else g).gameState =
            GameState.PLAYING → False
        split <;> simp_all
    | shakeFire t =>
        exfalso
        revert hp
        show (if g.shakeTimer = some t then
          { g with isShaking := false, shakeTimer := none } else g).gameState =
            GameState.PLAYING → False
        split <;> simp_all

unseal Rat.add Rat.mul Rat.inv Rat.sub Rat.ofScientific in
/-- Witness for C3 at a concrete input: a block dropped on a fresh run
(power mode off) ends it, and no non-start event revives a game-over
state. -/
theorem c3_fatal_collision_game_over_witness :
    processObstacle (traceInput 1) freshRun wBlock =
      (endGame (traceInput 1).msgIdx freshRun, none) ∧
    (processObstacle (traceInput 1) freshRun wBlock).1.gameState =
      GameState.GAME_OVER ∧
    (Event.toMenu = Event.start 0 → False) := by
  refine ⟨(c3_fatal_collision_game_over.1 (traceInput 1) freshRun wBlock
      rfl rfl rfl (by decide) (by decide)).1,
    (c3_fatal_collision_game_over.1 (traceInput 1) freshRun wBlock
      rfl rfl rfl (by decide) (by decide)).2, by simp⟩

/-- Claim C4.  A Block collision while power mode is active removes the
obstacle, adds the fixed 50-point bonus to the score, and leaves the run
state unchanged (the run does not end); the burst of 30 particles is
emitted on top of the existing ones. -/
theorem c4_flow_block_destroyed (inp : FrameInput) (g : Game) (o : Obstacle)
    (hc : inp.canvasSome = true)
    (ht : o.type = ObstacleType.BLOCK)
    (hf : g.isFlowState = true)
    (hdx : |laneCenterX inp.canvasW o.lane - laneCenterX inp.canvasW g.playerLane| <
      (PLAYER_SIZE + OBSTACLE_SIZE) / 2)
    (hdy : |o.y + g.speed - (inp.canvasH - 100)| < (PLAYER_SIZE + OBSTACLE_SIZE) / 2) :
    (processObstacle inp g o).2 = none ∧
    (processObstacle inp g o).1.score = g.score + 50 ∧
    (processObstacle inp g o).1.gameState = g.gameState ∧
    (processObstacle inp g o).1.particles.length = g.particles.length + 30 := by
  rw [processObstacle_block_flow inp g o hc ht hf hdx hdy]
  refine ⟨rfl, by simp, by simp, ?_⟩
  simp [createParticles, triggerShake]

unseal Rat.add Rat.mul Rat.inv Rat.sub Rat.ofScientific in
/-- Witness for C4 at a concrete input: with flow state forced on, a block
dropped on the player is destroyed for 50 points and the run stays
`PLAYING`. -/
theorem c4_flow_block_destroyed_witness :
    (processObstacle (traceInput 1) { freshRun with isFlowState := true } wBlock).2 = none ∧
    (processObstacle (traceInput 1) { freshRun with isFlowState := true } wBlock).1.score =
      ({ freshRun with isFlowState := true } : Game).score + 50 ∧
    (processObstacle (traceInput 1) { freshRun with isFlowState := true } wBlock).1.gameState =
      ({ freshRun with isFlowState := true } : Game).gameState ∧
    (processObstacle (traceInput 1) { freshRun with isFlowState := true } wBlock).1.particles.length =
      ({ freshRun with isFlowState := true } : Game).particles.length + 30 :=
  c4_flow_block_destroyed (traceInput 1) { freshRun with isFlowState := true } wBlock
    rfl rfl rfl (by decide) (by decide)

/-- Claim C5.  On the `PLAYING → GAME_OVER` transition the persisted entry
(and the in-memory high score) is rewritten exactly when the run's score
strictly exceeds the stored high score — for a numeric stored value the
guard is the strict comparison, so an equal score leaves storage
untouched. -/
theorem c5_high_score_persist (i : ℕ) (g : Game) :
    (endGame i g).storedHigh =
      (if jsGtB g.score g.highScore then some (toString g.score) else g.storedHigh) ∧
    (endGame i g).highScore =
      (if jsGtB g.score g.highScore then some g.score else g.highScore) ∧
    (∀ v : ℤ, g.highScore = some v → (jsGtB g.score g.highScore = true ↔ v < g.score)) := by
  refine ⟨?_, ?_, ?_⟩
  · rw [endGame_eq]
  · rw [endGame_eq]
  · intro v hv
    rw [hv]
    simp [jsGtB]

/-- A finished run whose score ties the stored high score. -/
def tiedRun : Game :=
  { freshRun with score := 7, highScore := some 7, storedHigh := some "7" }

/-- A finished run whose score beats the stored high score by one. -/
def beatRun : Game :=
  { freshRun with score := 8, highScore := some 7, storedHigh := some "7" }

/-- Witness for C5 at concrete inputs: ending with score 7 against a
stored high score of 7 leaves storage untouched, while 8 rewrites it. -/
theorem c5_high_score_persist_witness :
    (endGame 0 tiedRun).storedHigh =
      (if jsGtB tiedRun.score tiedRun.highScore then some (toString tiedRun.score)
       else tiedRun.storedHigh) ∧
    (jsGtB beatRun.score beatRun.highScore = true ↔ (7 : ℤ) < beatRun.score) := by
  constructor
  · exact (c5_high_score_persist 0 tiedRun).1
  · exact (c5_high_score_persist 0 beatRun).2.2 7 rfl

/-- Claim C6, counterexample.  A stored string with no parseable digit
prefix does not give a high score of 0: `parseInt` yields `NaN` (modelled
`none`), which the initialiser passes through unchanged, so for the stored
entry `"abc"` the resulting high score is `NaN`, not 0. -/
theorem c6_parse_counterexample :
    (initGame (some "abc")).highScore = none ∧
    (initGame (some "abc")).highScore ≠ some 0 := by
  constructor <;> decide

/-- Claim C6, amended.  The high score is read once at startup; an absent
entry and an empty stored string give 0, and no error is surfaced in any
case (the initialiser is total); but any other stored string is handed to
`parseInt` unguarded, so a string `parseInt` cannot parse yields `NaN`
(not 0) rather than being defaulted. -/
theorem c6_parse_amended :
    (initGame none).highScore = some 0 ∧
    (initGame (some "")).highScore = some 0 ∧
    (∀ s : String, s ≠ "" → (initGame (some s)).highScore = parseIntJS s) := by
  refine ⟨rfl, by decide, ?_⟩
  intro s hs
  show initHighScore (some s) = parseIntJS s
  dsimp only [initHighScore]
  rw [if_neg hs]

/-- Witness for the amended C6 at concrete inputs: the stored string
`"42"` parses to 42 and `"12abc"` to its digit prefix 12; the hexadecimal
form `"0x1A"` parses to 26, and a form feed before `"42"` is trimmed as
whitespace. -/
theorem c6_parse_amended_witness :
    (initGame (some "42")).highScore = parseIntJS "42" ∧
    parseIntJS "42" = some 42 ∧
    (initGame (some "12abc")).highScore = parseIntJS "12abc" ∧
    parseIntJS "12abc" = some 12 ∧
    (initGame (some "0x1A")).highScore = parseIntJS "0x1A" ∧
    parseIntJS "0x1A" = some 26 ∧
    (initGame (some "\x0C42")).highScore = parseIntJS "\x0C42" ∧
    parseIntJS "\x0C42" = some 42 ∧
    parseIntJS "-17" = some (-17) :=
  ⟨c6_parse_amended.2.2 "42" (by decide), by decide,
   c6_parse_amended.2.2 "12abc" (by decide), by decide,
   c6_parse_amended.2.2 "0x1A" (by decide), by decide,
   c6_parse_amended.2.2 "\x0C42" (by decide), by decide,
   by decide⟩

lemma step_speed_mono (e : Event) (g : Game)
    (he : ∀ t, e ≠ Event.start t) : g.speed ≤ (step e g).speed := by
  cases e with
  | start t => exact absurd rfl (he t)
  | toMenu =>
      show g.speed ≤ (if g.gameState = GameState.GAME_OVER then
        { g with gameState := GameState.MENU } else g).speed
      split <;> simp
  | key k =>
      show g.speed ≤ (handleKeyDown k g).speed
      simp
  | touch x w =>
      show g.speed ≤ (handleTouchStart x w g).speed
      simp
  | frame inp =>
      show g.speed ≤ (update inp g).speed
      by_cases h : g.gameState = GameState.PLAYING
      · rw [update_speed inp g h]
        have : (0 : ℚ) ≤ SPEED_INCREMENT := by norm_num [SPEED_INCREMENT]
        linarith
      · rw [update_of_notPlaying inp g h]
  | flowFire t =>
      show g.speed ≤ (if g.flowTimer = some t then
        { g with isFlowState := false, flowTimer := none } else g).speed
      split <;> simp
  | shakeFire t =>
      show g.speed ≤ (if g.shakeTimer = some t then
        { g with isShaking := false, shakeTimer := none } else g).speed
      split <;> simp

/-- Claim C7.  Every start/restart resets the fall speed to the initial
value 5; after `n` simulation frames that all began in `PLAYING`, the
speed is exactly `5 + n * 0.001`; and no event other than a start command
ever decreases the speed. -/
theorem c7_fall_speed :
    (∀ (t : ℚ) (g : Game), (startGame t g).speed = INITIAL_SPEED) ∧
    (∀ (ins : ℕ → FrameInput) (n : ℕ) (t : ℚ) (g : Game),
        (∀ k, k < n →
          (runFrames ins k (startGame t g)).gameState = GameState.PLAYING) →
        (runFrames ins n (startGame t g)).speed =
          INITIAL_SPEED + n * SPEED_INCREMENT) ∧
    (∀ (e : Event) (g : Game), (∀ t, e ≠ Event.start t) →
        g.speed ≤ (step e g).speed) := by
  refine ⟨fun t g => rfl, ?_, step_speed_mono⟩
  intro ins n t g h
  induction n with
  | zero => simp [runFrames]
  | succ n ih =>
      show (update (ins n) (runFrames ins n (startGame t g))).speed = _
      rw [update_speed _ _ (h n (Nat.lt_succ_self n)),
        ih (fun k hk => h k (Nat.lt_succ_of_lt hk))]
      push_cast
      ring

set_option maxRecDepth 100000 in
unseal Rat.add Rat.mul Rat.inv Rat.sub Rat.ofScientific in
/-- Witness for C7 at a concrete input: two frames into a fresh run the
speed is exactly `5 + 2 * 0.001`, and a menu command never lowers it. -/
theorem c7_fall_speed_witness :
    (runFrames (fun k => traceInput (k + 1)) 2 (startGame 0 (initGame none))).speed =
      INITIAL_SPEED + 2 * SPEED_INCREMENT ∧
    freshRun.speed ≤ (step Event.toMenu freshRun).speed := by
  constructor
  · exact c7_fall_speed.2.1 (fun k => traceInput (k + 1)) 2 0 (initGame none)
      (by decide)
  · exact c7_fall_speed.2.2 Event.toMenu freshRun (by intro t h; cases h)

/-- Claim C8.  The flow-state duration is the fixed 10000 ms of real time;
every activation arms the expiry timer to exactly `now + 10000`, replacing
(clearing) any pending deadline whatever it was; and when the armed timer
fires at its deadline, power mode deactivates and the timer is disarmed.
Deadlines are absolute real-time instants, so expiry is independent of how
many frames run meanwhile. -/
theorem c8_flow_timer :
    FLOW_STATE_DURATION = 10000 ∧
    (∀ (inp : FrameInput) (g : Game),
        (activateFlowState inp g).flowTimer = some (inp.time + FLOW_STATE_DURATION) ∧
        (activateFlowState inp g).isFlowState = true) ∧
    (∀ (g : Game) (t : ℚ), g.flowTimer = some t →
        (step (Event.flowFire t) g).isFlowState = false ∧
        (step (Event.flowFire t) g).flowTimer = none) := by
  refine ⟨rfl, fun inp g => ⟨rfl, rfl⟩, ?_⟩
  intro g t h
  show ((if g.flowTimer = some t then
      { g with isFlowState := false, flowTimer := none } else g).isFlowState = false) ∧
    ((if g.flowTimer = some t then
      { g with isFlowState := false, flowTimer := none } else g).flowTimer = none)
  rw [if_pos h]
  exact ⟨rfl, rfl⟩

/-- A running game with flow state on and both timers pending. -/
def flowRun : Game :=
  { freshRun with
      isFlowState := true
      isShaking := true
      flowTimer := some 10160
      shakeTimer := some 660 }

unseal Rat.add Rat.mul Rat.inv Rat.sub Rat.ofScientific in
/-- Witness for C8 at a concrete input: re-activating at `t = 2000` over a
pending deadline re-arms the timer to `12000`, and the armed timer firing
at its deadline switches flow state off. -/
theorem c8_flow_timer_witness :
    (activateFlowState (traceInput 125) flowRun).flowTimer =
      some ((traceInput 125).time + FLOW_STATE_DURATION) ∧
    (step (Event.flowFire 10160) flowRun).isFlowState = false ∧
    (step (Event.flowFire 10160) flowRun).flowTimer = none := by
  refine ⟨(c8_flow_timer.2.1 (traceInput 125) flowRun).1, ?_, ?_⟩
  · exact (c8_flow_timer.2.2 flowRun 10160 (by rfl)).1
  · exact (c8_flow_timer.2.2 flowRun 10160 (by rfl)).2

unseal Rat.add Rat.mul Rat.inv Rat.sub Rat.ofScientific in
/-- Claim C9, counterexample.  On the `PLAYING → GAME_OVER` transition the
shake-clear timer is not cancelled: ending a run that has both timers
pending leaves the shake timer armed exactly as it was, so it can still
fire later (including into a subsequent run, where it would overwrite the
shake flag). -/
theorem c9_shake_timer_counterexample :
    flowRun.gameState = GameState.PLAYING ∧
    flowRun.shakeTimer = some 660 ∧
    (endGame 0 flowRun).gameState = GameState.GAME_OVER ∧
    (endGame 0 flowRun).shakeTimer = some 660 ∧
    (endGame 0 flowRun).shakeTimer ≠ none ∧
    (step (Event.shakeFire 660) (startGame 100 (endGame 0 flowRun))).isShaking = false ∧
    (step (Event.shakeFire 660) (startGame 100 (endGame 0 flowRun))).shakeTimer = none := by
  decide

/-- Claim C9, amended.  On every `PLAYING → GAME_OVER` transition the
pending power-mode expiry timer is cancelled, but the shake-clear timer is
left untouched (armed as before), so only the flow-state timer is
guaranteed not to fire into a subsequent run. -/
theorem c9_timers_amended (i : ℕ) (g : Game) :
    (endGame i g).flowTimer = none ∧
    (endGame i g).shakeTimer = g.shakeTimer := by
  simp

@[simp] lemma triggerShake_particles (t d : ℚ) (g : Game) :
    (triggerShake t d g).particles = g.particles := rfl

@[simp] lemma endGame_particles (i : ℕ) (g : Game) :
    (endGame i g).particles = g.particles := by rw [endGame_eq]

@[simp] lemma trailEmit_score (inp : FrameInput) (g : Game) :
    (trailEmit inp g).score = g.score := by
  unfold trailEmit
  repeat' split
  all_goals rfl

/-- With power mode off and a failed trail roll, no trail particle is
emitted. -/
lemma trailEmit_no_emit (inp : FrameInput) (g : Game)
    (hf : g.isFlowState = false) (ht : ¬ inp.trailRoll < 0.3) :
    trailEmit inp g = g := by
  unfold trailEmit
  split
  · rw [hf, if_neg Bool.false_ne_true, if_neg ht]
  · rfl

/-- The obstacle pass over a fatal Block followed by a colliding Aura, as
in the frame that ends the run: the whole pass still runs — the state ends
in `GAME_OVER`, the aura is still collected, the score is untouched by the
pass itself, both obstacles are removed, and the pre-existing particles
survive into the output list. -/
lemma passObstacles_fatal_then_aura (inp : FrameInput) (gg : Game)
    (o1 o2 : Obstacle)
    (hflow : gg.isFlowState = false)
    (hc : inp.canvasSome = true)
    (ht1 : o1.type = ObstacleType.BLOCK)
    (ht2 : o2.type = ObstacleType.AURA)
    (haura : gg.auraCount + 1 < 10)
    (hdx1 : |laneCenterX inp.canvasW o1.lane - laneCenterX inp.canvasW gg.playerLane| <
      (PLAYER_SIZE + OBSTACLE_SIZE) / 2)
    (hdy1 : |o1.y + gg.speed - (inp.canvasH - 100)| < (PLAYER_SIZE + OBSTACLE_SIZE) / 2)
    (hdx2 : |laneCenterX inp.canvasW o2.lane - laneCenterX inp.canvasW gg.playerLane| <
      (PLAYER_SIZE + OBSTACLE_SIZE) / 2)
    (hdy2 : |o2.y + gg.speed - (inp.canvasH - 100)| < (PLAYER_SIZE + OBSTACLE_SIZE) / 2) :
    (passObstacles inp gg [o1, o2]).2 = [] ∧
    (passObstacles inp gg [o1, o2]).1.gameState = GameState.GAME_OVER ∧
    (passObstacles inp gg [o1, o2]).1.auraCount = gg.auraCount + 1 ∧
    (passObstacles inp gg [o1, o2]).1.score = gg.score ∧
    (passObstacles inp gg [o1, o2]).1.isFlowState = false ∧
    (∀ q ∈ gg.particles, q ∈ (passObstacles inp gg [o1, o2]).1.particles) := by
  have h1 := processObstacle_block_fatal inp gg o1 hc ht1 hflow hdx1 hdy1
  have h2 := processObstacle_aura_noact inp (endGame inp.msgIdx gg) o2 hc ht2
    (by
      rw [endGame_auraCount]
      intro hand
      omega)
    (by rw [endGame_playerLane]; exact hdx2)
    (by rw [endGame_speed]; exact hdy2)
  simp only [passObstacles, h1, h2]
  refine ⟨rfl, by simp, by simp, by simp, by simp [hflow], ?_⟩
  intro q hq
  simp [createParticles, hq]

/-- Claim C10.  In the frame whose first obstacle is a fatal Block (power
mode off), the frame update does not abort early: the Aura behind it in
the list is still advanced and collected (aura count up by one), the
particle pass still runs on the pre-existing particles, the per-frame
survival score increment of 1 is still applied after the fatal collision,
both obstacles are removed, and one more animation frame is scheduled. -/
theorem c10_fatal_frame_completes (inp : FrameInput) (g : Game)
    (o1 o2 : Obstacle) (p : Particle)
    (hplay : g.gameState = GameState.PLAYING)
    (hflow : g.isFlowState = false)
    (hobs : g.obstacles = [o1, o2])
    (hparts : g.particles = [p])
    (hc : inp.canvasSome = true)
    (ht1 : o1.type = ObstacleType.BLOCK)
    (ht2 : o2.type = ObstacleType.AURA)
    (haura : g.auraCount + 1 < 10)
    (hspawn : ¬ inp.spawnRoll < 0.02 * ((g.speed + SPEED_INCREMENT) / 5))
    (htrail : ¬ inp.trailRoll < 0.3)
    (hdx1 : |laneCenterX inp.canvasW o1.lane - laneCenterX inp.canvasW g.playerLane| <
      (PLAYER_SIZE + OBSTACLE_SIZE) / 2)
    (hdy1 : |o1.y + (g.speed + SPEED_INCREMENT) - (inp.canvasH - 100)| <
      (PLAYER_SIZE + OBSTACLE_SIZE) / 2)
    (hdx2 : |laneCenterX inp.canvasW o2.lane - laneCenterX inp.canvasW g.playerLane| <
      (PLAYER_SIZE + OBSTACLE_SIZE) / 2)
    (hdy2 : |o2.y + (g.speed + SPEED_INCREMENT) - (inp.canvasH - 100)| <
      (PLAYER_SIZE + OBSTACLE_SIZE) / 2)
    (hlife : 0 < (stepParticle p).life) :
    (update inp g).gameState = GameState.GAME_OVER ∧
    (update inp g).auraCount = g.auraCount + 1 ∧
    (update inp g).score = g.score + 1 ∧
    (update inp g).obstacles = [] ∧
    stepParticle p ∈ (update inp g).particles ∧
    (update inp g).frameReq = true := by
  have hpass := passObstacles_fatal_then_aura inp
    { g with
        obstacles := [o1, o2]
        lastTime := inp.time
        speed := g.speed + SPEED_INCREMENT } o1 o2
    hflow hc ht1 ht2 haura hdx1 hdy1 hdx2 hdy2
  unfold update
  rw [if_pos hplay]
  dsimp only
  rw [if_neg hspawn, hobs]
  rw [trailEmit_no_emit]
  · dsimp only
    refine ⟨hpass.2.1, hpass.2.2.1, ?_, hpass.1, ?_, rfl⟩
    · rw [hpass.2.2.2.1]
    · refine List.mem_filter.mpr ⟨List.mem_map_of_mem _ ?_, by simpa using hlife⟩
      exact hpass.2.2.2.2.2 p (by dsimp only; rw [hparts]; exact List.mem_singleton_self p)
  · dsimp only
    exact hpass.2.2.2.2.1
  · exact htrail

/-- A live particle for the C10 witness frame. -/
def wP : Particle :=
  { id := 0, x := 0, y := 0, vx := 0, vy := 0, life := 1, maxLife := 1/2,
    color := "#00ffff", size := 3, glow := true }

/-- Frame input for the C10 witness: like `traceInput 1` but with a spawn
roll that fails the spawn check. -/
def c10Input : FrameInput := { traceInput 1 with spawnRoll := 1 }

/-- A fresh run carrying a fatal block, an aura behind it, and one live
particle. -/
def fatalRun : Game :=
  { freshRun with
      obstacles := [wBlock, wAura]
      particles := [wP] }

unseal Rat.add Rat.mul Rat.inv Rat.sub Rat.ofScientific in
/-- Witness for C10 at a concrete input: the frame that kills the run
still collects the aura behind the fatal block, steps the live particle,
adds the survival point, clears both obstacles, and re-arms the frame
loop. -/
theorem c10_fatal_frame_completes_witness :
    (update c10Input fatalRun).gameState = GameState.GAME_OVER ∧
    (update c10Input fatalRun).auraCount = fatalRun.auraCount + 1 ∧
    (update c10Input fatalRun).score = fatalRun.score + 1 ∧
    (update c10Input fatalRun).obstacles = [] ∧
    stepParticle wP ∈ (update c10Input fatalRun).particles ∧
    (update c10Input fatalRun).frameReq = true :=
  c10_fatal_frame_completes c10Input fatalRun wBlock wAura wP
    rfl rfl rfl rfl rfl rfl rfl (by decide) (by decide) (by decide)
    (by decide) (by decide) (by decide) (by decide) (by decide)

end VibeSurfer
